import Mathlib

/-!
Shallow embedding of the volume resize orchestration engine of the
tidb-operator repository (pkg/manager/volumes): the PVC annotation state
machine, phase classification, the per-pod modification dispatch with
leader-eviction gating, the desired-volume resolver, the EBS delegate
adapter, the StatefulSet template sync check, and the pod ordering.

Modelling conventions:
- Kubernetes string-keyed annotation maps are association lists
  `List (String × String)`; `lookupKV` is map access with `ok`,
  `annoD` is Go map indexing (missing key reads as "").
- `resource.Quantity` values are represented by their canonical string
  (the engine only ever compares them via `Quantity.String()` equality);
  `resource.ParseQuantity` and `time.Parse` are external library calls
  and are passed in as function parameters.
- Instants and durations are integers (nanoseconds); `time.Since t` is
  `now - t` for an explicit `now` parameter.
- Fallible external calls return `Option`/`Except`; a `none` result of a
  function models a Go nil-pointer dereference (panic) of the embedded code.
- Kubernetes API updates (`Update`, `UpdateStatus`) are modelled as pure
  state transitions (the success path); delegate results are parameters.
-/

/-- Association list lookup: Go map access with the `ok` flag. -/
def lookupKV : List (String × String) → String → Option String
  | [], _ => none
  | (k0, v0) :: rest, k => if k0 = k then some v0 else lookupKV rest k

/-- Association list update: Go map assignment (replace or append). -/
def setKV : List (String × String) → String → String → List (String × String)
  | [], k, v => [(k, v)]
  | (k0, v0) :: rest, k, v =>
    if k0 = k then (k, v) :: rest else (k0, v0) :: setKV rest k v

theorem lookupKV_setKV_same (l : List (String × String)) (k v : String) :
    lookupKV (setKV l k v) k = some v := by
  induction l with
  | nil => simp [setKV, lookupKV]
  | cons hd tl ih =>
    by_cases h : hd.1 = k <;> simp [setKV, lookupKV, h, ih]

theorem lookupKV_setKV_other (l : List (String × String)) (k v k2 : String)
    (h : k2 ≠ k) : lookupKV (setKV l k v) k2 = lookupKV l k2 := by
  have hne : k ≠ k2 := fun h2 => h h2.symm
  induction l with
  | nil => simp [setKV, lookupKV, hne]
  | cons hd tl ih =>
    by_cases hk : hd.1 = k
    · subst hk
      simp [setKV, lookupKV, hne]
    · by_cases hk2 : hd.1 = k2 <;> simp [setKV, lookupKV, hk, hk2, h, ih]

/-- Annotation keys, from pkg/manager/volumes/pvc_modifier.go. -/
def annoKeyPVCSpecRevision : String := "spec.tidb.pingcap.com/revision"

def annoKeyPVCSpecStorageClass : String := "spec.tidb.pingcap.com/storage-class"

def annoKeyPVCSpecStorageSize : String := "spec.tidb.pingcap.com/storage-size"

def annoKeyPVCStatusRevision : String := "status.tidb.pingcap.com/revision"

def annoKeyPVCStatusStorageClass : String := "status.tidb.pingcap.com/storage-class"

def annoKeyPVCStatusStorageSize : String := "status.tidb.pingcap.com/storage-size"

def annoKeyPVCLastTransitionTimestamp : String :=
  "status.tidb.pingcap.com/last-transition-timestamp"

/-- defaultModifyWaitingDuration = time.Minute * 1, in nanoseconds. -/
def defaultModifyWaitingDuration : Int := 60 * 1000000000

/-- A StorageClass: only the fields the engine reads. -/
structure StorageClass where
  name : String
  provisioner : String
deriving DecidableEq, Repr

/-- A PersistentVolumeClaim as the engine sees it: its annotations, its live
requested storage size, its reported capacity (both as canonical quantity
strings) and its spec storage-class name. -/
structure PVC where
  annos : List (String × String)
  requestStorage : String
  capacityStorage : String
  storageClassName : Option String
deriving DecidableEq, Repr

/-- Go map access with `ok` on the PVC annotations. -/
def lookupAnno (pvc : PVC) (k : String) : Option String :=
  lookupKV pvc.annos k

/-- Go map indexing without `ok` on the PVC annotations: missing reads "". -/
def annoD (pvc : PVC) (k : String) : String :=
  (lookupKV pvc.annos k).getD ""

/-- Set one annotation on the PVC. -/
def setAnno (pvc : PVC) (k v : String) : PVC :=
  { pvc with annos := setKV pvc.annos k v }

/-- DesiredVolume from pkg/manager/volumes/selector.go: name, size (string),
optional storage class. -/
structure DesiredVolume where
  name : String
  size : String
  storageClass : Option StorageClass
deriving DecidableEq, Repr

/-- ignoreNil from pkg/manager/volumes/pvc_modifier.go. -/
def ignoreNil : Option String → String
  | none => ""
  | some s => s

/-- VolumePhase (union of the enum variants appearing in the repository). -/
inductive VolumePhase where
  | unknown
  | pending
  | preparing
  | waitForLeaderEviction
  | modifying
  | modified
deriving DecidableEq, Repr

/-- isPVCRevisionChanged (src/unnamed/part_001, podVolModifier variant):
spec-revision and status-revision annotations differ (Go map indexing,
absent key reads ""). -/
def isPVCRevisionChanged (pvc : PVC) : Bool :=
  annoD pvc annoKeyPVCSpecRevision ≠ annoD pvc annoKeyPVCStatusRevision

/-- isPVCStatusMatched (src/unnamed/part_001): the claim's effective current
class/size (status snapshot, else live claim spec) differs from the desired
scName/size. Returns `isChanged`. -/
def isPVCStatusMatched (pvc : PVC) (scName size : String) : Bool :=
  let oldSc := match lookupAnno pvc annoKeyPVCStatusStorageClass with
    | some s => s
    | none => ignoreNil pvc.storageClassName
  let oldSize := match lookupAnno pvc annoKeyPVCStatusStorageSize with
    | some s => s
    | none => pvc.requestStorage
  (oldSc ≠ scName) || (oldSize ≠ size)

/-- needModify (src/unnamed/part_001). -/
def needModify (pvc : PVC) (desired : DesiredVolume) : Bool :=
  let scName := match desired.storageClass with
    | some sc => sc.name
    | none => ""
  isPVCStatusMatched pvc scName desired.size

/-- Modelled from the spec: the provisioner-keyed delegate registry backing
`podVolModifier.getVolumeModifier(sc)` called by `waitForNextTime`
(src/unnamed/part_001); the implementation of this resolver is not among the
source files, only its callers and tests. Per the spec, the delegate is
resolved by the desired storage class's provisioner, and an unknown
provisioner (or absent storage class) resolves no delegate. A delegate is
represented by its `MinWaitDuration` in nanoseconds. -/
def getVolumeModifierBySC (modifiers : List (String × Int)) :
    Option StorageClass → Option Int
  | none => none
  | some sc =>
    match modifiers.lookup sc.provisioner with
    | some d => some d
    | none => none

/-- waitForNextTime (src/unnamed/part_001, podVolModifier variant): true iff
the last-transition annotation exists, parses, and its age is strictly below
the resolved delegate's MinWaitDuration (default when no delegate). -/
def waitForNextTime (parseTime : String → Option Int) (now : Int)
    (modifiers : List (String × Int)) (pvc : PVC) (sc : Option StorageClass) :
    Bool :=
  match lookupAnno pvc annoKeyPVCLastTransitionTimestamp with
  | none => false
  | some str =>
    match parseTime str with
    | none => false
    | some t =>
      let d := now - t
      match getVolumeModifierBySC modifiers sc with
      | none => d < defaultModifyWaitingDuration
      | some minWait => d < minWait

/-- getVolumePhase (src/unnamed/part_001, podVolModifier variant). -/
def getVolumePhase (parseTime : String → Option Int) (now : Int)
    (modifiers : List (String × Int)) (pvc : PVC) (desired : DesiredVolume) :
    VolumePhase :=
  if isPVCRevisionChanged pvc then .modifying
  else if !needModify pvc desired then .modified
  else if waitForNextTime parseTime now modifiers pvc desired.storageClass then
    .pending
  else .preparing

/-- C3: for every claim whose spec-revision annotation differs from its
status-revision annotation, phase classification returns Modifying,
regardless of current size/class equality with the desired volume and
regardless of the last-transition timestamp. -/
theorem phase_modifying_of_revision_changed
    (parseTime : String → Option Int) (now : Int)
    (modifiers : List (String × Int)) (pvc : PVC) (desired : DesiredVolume)
    (h : annoD pvc annoKeyPVCSpecRevision ≠ annoD pvc annoKeyPVCStatusRevision) :
    getVolumePhase parseTime now modifiers pvc desired = .modifying := by
  simp [getVolumePhase, isPVCRevisionChanged, h]

/-- Witness for C3 at a concrete claim: spec revision "1", status revision
absent, size and class already equal to the desired volume, fresh timestamp. -/
theorem phase_modifying_of_revision_changed_witness :
    annoD ⟨[(annoKeyPVCSpecRevision, "1")], "10Gi", "10Gi", some "sc0"⟩
        annoKeyPVCSpecRevision ≠
      annoD ⟨[(annoKeyPVCSpecRevision, "1")], "10Gi", "10Gi", some "sc0"⟩
        annoKeyPVCStatusRevision ∧
    getVolumePhase (fun _ => some 0) 0 [("p0", 100)]
        ⟨[(annoKeyPVCSpecRevision, "1")], "10Gi", "10Gi", some "sc0"⟩
        ⟨"tikv", "10Gi", some ⟨"sc0", "p0"⟩⟩ = .modifying :=
  ⟨by decide,
   phase_modifying_of_revision_changed (fun _ => some 0) 0 [("p0", 100)]
     ⟨[(annoKeyPVCSpecRevision, "1")], "10Gi", "10Gi", some "sc0"⟩
     ⟨"tikv", "10Gi", some ⟨"sc0", "p0"⟩⟩ (by decide)⟩

/-- Helper: waitForNextTime holds exactly when a parseable last-transition
timestamp exists whose age is strictly below the resolved wait duration. -/
theorem waitForNextTime_iff (parseTime : String → Option Int) (now : Int)
    (modifiers : List (String × Int)) (pvc : PVC) (sc : Option StorageClass) :
    waitForNextTime parseTime now modifiers pvc sc = true ↔
      ∃ s t, lookupAnno pvc annoKeyPVCLastTransitionTimestamp = some s ∧
        parseTime s = some t ∧
        now - t < (getVolumeModifierBySC modifiers sc).getD
          defaultModifyWaitingDuration := by
  unfold waitForNextTime
  cases hs : lookupAnno pvc annoKeyPVCLastTransitionTimestamp with
  | none => simp [hs]
  | some s =>
    cases ht : parseTime s with
    | none => simp [ht]
    | some t =>
      cases hm : getVolumeModifierBySC modifiers sc with
      | none => simp [ht, hm]
      | some m => simp [ht, hm]

/-- C5: for a claim that needs modification (by the status-match check) and
whose spec and status revision annotations agree, the phase is Pending
exactly when a parseable last-transition timestamp exists whose age is
strictly below the active delegate's MinWaitDuration (default duration when
no delegate resolves), and Preparing otherwise; it is never Preparing while
that cooldown is running. -/
theorem phase_pending_iff_cooldown
    (parseTime : String → Option Int) (now : Int)
    (modifiers : List (String × Int)) (pvc : PVC) (desired : DesiredVolume)
    (h1 : annoD pvc annoKeyPVCSpecRevision = annoD pvc annoKeyPVCStatusRevision)
    (h2 : needModify pvc desired = true) :
    (getVolumePhase parseTime now modifiers pvc desired = .pending ∨
      getVolumePhase parseTime now modifiers pvc desired = .preparing) ∧
    (getVolumePhase parseTime now modifiers pvc desired = .pending ↔
      ∃ s t, lookupAnno pvc annoKeyPVCLastTransitionTimestamp = some s ∧
        parseTime s = some t ∧
        now - t < (getVolumeModifierBySC modifiers desired.storageClass).getD
          defaultModifyWaitingDuration) ∧
    (getVolumePhase parseTime now modifiers pvc desired = .preparing ↔
      ¬ ∃ s t, lookupAnno pvc annoKeyPVCLastTransitionTimestamp = some s ∧
        parseTime s = some t ∧
        now - t < (getVolumeModifierBySC modifiers desired.storageClass).getD
          defaultModifyWaitingDuration) := by
  have hrev : isPVCRevisionChanged pvc = false := by
    simp [isPVCRevisionChanged, h1]
  cases hw : waitForNextTime parseTime now modifiers pvc desired.storageClass
  · have hphase : getVolumePhase parseTime now modifiers pvc desired =
        .preparing := by
      simp [getVolumePhase, hrev, h2, hw]
    rw [hphase]
    rw [← waitForNextTime_iff parseTime now modifiers pvc desired.storageClass]
    simp [hw]
  · have hphase : getVolumePhase parseTime now modifiers pvc desired =
        .pending := by
      simp [getVolumePhase, hrev, h2, hw]
    rw [hphase]
    rw [← waitForNextTime_iff parseTime now modifiers pvc desired.storageClass]
    simp [hw]

/-- Witness for C5: a claim needing a size change, equal revisions, with a
timestamp of age 30s against a resolved delegate MinWaitDuration of 60s,
classifies Pending. -/
theorem phase_pending_iff_cooldown_witness :
    needModify
        ⟨[(annoKeyPVCLastTransitionTimestamp, "ts")], "10Gi", "10Gi", some "sc0"⟩
        ⟨"tikv", "20Gi", some ⟨"sc0", "p0"⟩⟩ = true ∧
    getVolumePhase (fun _ => some 0) 30000000000 [("p0", 60000000000)]
        ⟨[(annoKeyPVCLastTransitionTimestamp, "ts")], "10Gi", "10Gi", some "sc0"⟩
        ⟨"tikv", "20Gi", some ⟨"sc0", "p0"⟩⟩ = .pending := by
  refine ⟨by decide, ?_⟩
  refine (phase_pending_iff_cooldown (fun _ => some 0) 30000000000
    [("p0", 60000000000)]
    ⟨[(annoKeyPVCLastTransitionTimestamp, "ts")], "10Gi", "10Gi", some "sc0"⟩
    ⟨"tikv", "20Gi", some ⟨"sc0", "p0"⟩⟩ (by decide) (by decide)).2.1.mpr ?_
  exact ⟨"ts", 0, by decide, rfl, by decide⟩

/-- upgradeRevision (pkg/manager/volumes/selector.go): bump the spec-revision
annotation; an absent annotation yields "1"; an unparsable one is reset to 0
before the bump. strconv.Atoi is modelled by String.toInt?. -/
def upgradeRevision (pvc : PVC) : PVC :=
  let rev : Int :=
    match lookupAnno pvc annoKeyPVCSpecRevision with
    | some str =>
      (match str.toInt? with
       | some oldRev => oldRev
       | none => 0) + 1
    | none => 1
  setAnno pvc annoKeyPVCSpecRevision (toString rev)

/-- isPVCSpecMatched (pkg/manager/volumes/selector.go): true when the
snapshotted spec storage-class or size annotation differs from scName/size
(missing size annotation falls back to the live requested size). Despite the
name, it returns `isChanged`. -/
def isPVCSpecMatched (pvc : PVC) (scName size : String) : Bool :=
  let oldSc := annoD pvc annoKeyPVCSpecStorageClass
  let oldSize := match lookupAnno pvc annoKeyPVCSpecStorageSize with
    | some s => s
    | none => pvc.requestStorage
  (oldSc ≠ scName) || (oldSize ≠ size)

/-- snapshotStorageClassAndSize (pkg/manager/volumes/selector.go): write the
desired class/size into the spec annotations, reporting whether they changed. -/
def snapshotStorageClassAndSize (pvc : PVC) (scName size : String) :
    PVC × Bool :=
  let isChanged := isPVCSpecMatched pvc scName size
  (setAnno (setAnno pvc annoKeyPVCSpecStorageClass scName)
    annoKeyPVCSpecStorageSize size, isChanged)

/-- The Preparing-phase spec snapshot: snapshotStorageClassAndSize followed by
the conditional upgradeRevision, as performed by modifyPVCAnnoSpec
(pkg/manager/volumes/selector.go). -/
def specSnapshotStep (pvc : PVC) (scName size : String) : PVC :=
  let r := snapshotStorageClassAndSize pvc scName size
  if r.2 then upgradeRevision r.1 else r.1

theorem annoD_specSnapshotStep_sc (pvc : PVC) (scName size : String) :
    annoD (specSnapshotStep pvc scName size) annoKeyPVCSpecStorageClass =
      scName := by
  unfold specSnapshotStep snapshotStorageClassAndSize upgradeRevision
  by_cases h : isPVCSpecMatched pvc scName size <;>
    simp [h, annoD, setAnno, lookupKV_setKV_same, lookupKV_setKV_other,
      annoKeyPVCSpecStorageClass, annoKeyPVCSpecStorageSize,
      annoKeyPVCSpecRevision]

theorem lookupAnno_specSnapshotStep_size (pvc : PVC) (scName size : String) :
    lookupAnno (specSnapshotStep pvc scName size) annoKeyPVCSpecStorageSize =
      some size := by
  unfold specSnapshotStep snapshotStorageClassAndSize upgradeRevision
  by_cases h : isPVCSpecMatched pvc scName size <;>
    simp [h, lookupAnno, setAnno, lookupKV_setKV_same, lookupKV_setKV_other,
      annoKeyPVCSpecStorageSize, annoKeyPVCSpecRevision]

theorem isPVCSpecMatched_specSnapshotStep (pvc : PVC) (scName size : String) :
    isPVCSpecMatched (specSnapshotStep pvc scName size) scName size = false := by
  simp [isPVCSpecMatched, annoD_specSnapshotStep_sc,
    lookupAnno_specSnapshotStep_size,
    show annoD (specSnapshotStep pvc scName size) annoKeyPVCSpecStorageClass =
      scName from annoD_specSnapshotStep_sc pvc scName size]

theorem annoD_rev_of_not_changed (pvc : PVC) (scName size : String)
    (h : isPVCSpecMatched pvc scName size = false) :
    annoD (specSnapshotStep pvc scName size) annoKeyPVCSpecRevision =
      annoD pvc annoKeyPVCSpecRevision := by
  unfold specSnapshotStep snapshotStorageClassAndSize
  simp [h, annoD, setAnno, lookupKV_setKV_other, annoKeyPVCSpecStorageClass,
    annoKeyPVCSpecStorageSize, annoKeyPVCSpecRevision]

/-- C6: the Preparing-phase spec snapshot is idempotent on the revision
counter: a second application with the same desired class and size leaves the
spec-revision annotation where the first left it; and the revision is bumped
only when the snapshotted storage-class or size annotation actually changes
(unchanged snapshot, by isPVCSpecMatched, implies unchanged revision). -/
theorem specSnapshotStep_idempotent_revision (pvc : PVC) (scName size : String) :
    annoD (specSnapshotStep (specSnapshotStep pvc scName size) scName size)
        annoKeyPVCSpecRevision =
      annoD (specSnapshotStep pvc scName size) annoKeyPVCSpecRevision ∧
    (isPVCSpecMatched pvc scName size = false →
      annoD (specSnapshotStep pvc scName size) annoKeyPVCSpecRevision =
        annoD pvc annoKeyPVCSpecRevision) := by
  constructor
  · exact annoD_rev_of_not_changed _ scName size
      (isPVCSpecMatched_specSnapshotStep pvc scName size)
  · exact annoD_rev_of_not_changed pvc scName size

/-- Witness for C6 at a concrete claim: a fresh claim (no annotations) whose
size moves to 20Gi gets revision "1", and a repeated snapshot keeps it; the
second conjunct applies to a claim already snapshotted at 10Gi. -/
theorem specSnapshotStep_idempotent_revision_witness :
    annoD (specSnapshotStep
        (specSnapshotStep ⟨[], "10Gi", "10Gi", some "sc0"⟩ "sc0" "20Gi")
        "sc0" "20Gi") annoKeyPVCSpecRevision =
      annoD (specSnapshotStep ⟨[], "10Gi", "10Gi", some "sc0"⟩ "sc0" "20Gi")
        annoKeyPVCSpecRevision ∧
    annoD (specSnapshotStep
        ⟨[(annoKeyPVCSpecStorageClass, "sc0"), (annoKeyPVCSpecStorageSize, "10Gi"),
          (annoKeyPVCSpecRevision, "3")], "10Gi", "10Gi", some "sc0"⟩
        "sc0" "10Gi") annoKeyPVCSpecRevision =
      annoD ⟨[(annoKeyPVCSpecStorageClass, "sc0"), (annoKeyPVCSpecStorageSize, "10Gi"),
          (annoKeyPVCSpecRevision, "3")], "10Gi", "10Gi", some "sc0"⟩
        annoKeyPVCSpecRevision :=
  ⟨(specSnapshotStep_idempotent_revision ⟨[], "10Gi", "10Gi", some "sc0"⟩
      "sc0" "20Gi").1,
   (specSnapshotStep_idempotent_revision
      ⟨[(annoKeyPVCSpecStorageClass, "sc0"), (annoKeyPVCSpecStorageSize, "10Gi"),
        (annoKeyPVCSpecRevision, "3")], "10Gi", "10Gi", some "sc0"⟩
      "sc0" "10Gi").2 (by decide)⟩

/-- getDesiredVolumeByName (pkg/manager/volumes/selector.go). -/
def getDesiredVolumeByName (vs : List DesiredVolume) (name : String) :
    Option DesiredVolume :=
  match vs with
  | [] => none
  | v :: rest => if v.name = name then some v else getDesiredVolumeByName rest name

/-- isStorageClassMatched (pkg/manager/volumes/pvc_modifier.go). `none` models
the nil-pointer dereference of `sc.Name` reached when `sc` is nil but the
compared name is non-empty. -/
def isStorageClassMatched : Option StorageClass → String → Option Bool
  | none, "" => some true
  | none, _ => none
  | some sc, scName => if sc.name = scName then some true else some false

/-- A volume-claim template of the live StatefulSet: the fields compared by
isStatefulSetSynced. -/
structure VolTemplate where
  name : String
  sizeStr : String
  storageClassName : Option String
deriving DecidableEq, Repr

/-- isStatefulSetSynced (pkg/manager/volumes/pvc_modifier.go), over the
StatefulSet's volume-claim templates: a template with no matching desired
volume is skipped; a size or class mismatch makes the set unsynced; a panic
inside isStorageClassMatched propagates as `none`. -/
def isStatefulSetSynced (desired : List DesiredVolume) :
    List VolTemplate → Option Bool
  | [] => some true
  | t :: rest =>
    match getDesiredVolumeByName desired t.name with
    | none => isStatefulSetSynced desired rest
    | some d =>
      if d.size ≠ t.sizeStr then some false
      else
        match isStorageClassMatched d.storageClass (ignoreNil t.storageClassName) with
        | none => none
        | some b => if !b then some false else isStatefulSetSynced desired rest

/-- C9: isStorageClassMatched is total only when the desired StorageClass is
non-nil or the compared name is empty; with a nil class and a non-empty name
it dereferences nil (none), and the StatefulSet sync check routed through it
is then undefined for a template naming a storage class while its desired
volume resolved none. -/
theorem isStorageClassMatched_partial_on_nil :
    (∀ scName : String, scName ≠ "" → isStorageClassMatched none scName = none) ∧
    (∀ (sc : Option StorageClass) (scName : String), sc ≠ none ∨ scName = "" →
      ∃ b, isStorageClassMatched sc scName = some b) ∧
    (∀ (d : DesiredVolume) (t : VolTemplate) (n : String),
      d.storageClass = none → t.storageClassName = some n → n ≠ "" →
      d.name = t.name → d.size = t.sizeStr →
      isStatefulSetSynced [d] [t] = none) := by
  refine ⟨?_, ?_, ?_⟩
  · intro scName h
    unfold isStorageClassMatched
    split
    · simp at h
    · rfl
    · simp_all
  · intro sc scName h
    match sc, scName with
    | none, "" => exact ⟨true, rfl⟩
    | none, scName =>
      rcases h with h | h
      · simp at h
      · subst h
        exact ⟨true, rfl⟩
    | some sc, scName =>
      unfold isStorageClassMatched
      by_cases hn : sc.name = scName
      · exact ⟨true, by simp [hn]⟩
      · exact ⟨false, by simp [hn]⟩
  · intro d t n hsc htn hne hname hsize
    unfold isStatefulSetSynced getDesiredVolumeByName
    have hmatch : isStorageClassMatched d.storageClass
        (ignoreNil t.storageClassName) = none := by
      rw [hsc, htn]
      unfold ignoreNil isStorageClassMatched
      split
      · exact absurd (by assumption) (by simpa using hne)
      · rfl
      · simp_all
    simp [hname, hsize, hmatch]

/-- Witness for C9: a nil storage class against name "gp3" panics; a non-nil
class is total; a singleton template naming "gp3" with a class-less desired
volume makes the sync check undefined. -/
theorem isStorageClassMatched_partial_on_nil_witness :
    isStorageClassMatched none "gp3" = none ∧
    (∃ b, isStorageClassMatched (some ⟨"gp3", "aws"⟩) "gp3" = some b) ∧
    isStatefulSetSynced [⟨"tikv", "10Gi", none⟩]
      [⟨"tikv", "10Gi", some "gp3"⟩] = none :=
  ⟨isStorageClassMatched_partial_on_nil.1 "gp3" (by decide),
   isStorageClassMatched_partial_on_nil.2.1 (some ⟨"gp3", "aws"⟩) "gp3"
     (Or.inl (by simp)),
   isStorageClassMatched_partial_on_nil.2.2 ⟨"tikv", "10Gi", none⟩
     ⟨"tikv", "10Gi", some "gp3"⟩ "gp3" rfl rfl (by decide) rfl rfl⟩

/-- One TiKV store entry of the cluster status: the fields read by
isLeaderEvictedOrTimeout. -/
structure TiKVStore where
  podName : String
  leaderCount : Int
deriving DecidableEq, Repr

/-- EvictLeaderStatus: `none` models a zero BeginTime (status.BeginTime.IsZero()),
`some b` a meaningful begin instant. -/
structure EvictLeaderStatus where
  beginTime : Option Int
deriving DecidableEq, Repr

/-- TidbCluster status slice read by the eviction gate, plus the configured
TiKVEvictLeaderTimeout (nanoseconds). -/
structure TidbCluster where
  tikvStores : List TiKVStore
  tikvEvictLeader : List (String × EvictLeaderStatus)
  tikvEvictLeaderTimeout : Int
deriving DecidableEq, Repr

/-- isLeaderEvictedOrTimeout (pkg/manager/volumes/selector.go): for the store
whose PodName matches the pod, true iff the leader count is zero or an
eviction with a non-zero begin time has been outstanding longer than the
timeout; a pod with no registered store yields true. -/
def isLeaderEvictedOrTimeout (now : Int) (tc : TidbCluster) (podName : String) :
    Bool :=
  match tc.tikvStores.find? (fun s => s.podName = podName) with
  | some store =>
    if store.leaderCount = 0 then true
    else
      match List.lookup podName tc.tikvEvictLeader with
      | some st =>
        match st.beginTime with
        | some b => now - b > tc.tikvEvictLeaderTimeout
        | none => false
      | none => false
  | none => true

/-- syncPVCSize (pkg/manager/volumes/selector.go): fs-resize handshake.
Returns the (possibly updated) claim and the synced flag; `none` models a
ParseQuantity failure of the desired size. -/
def syncPVCSize (parseOk : String → Bool) (size : String) (pvc : PVC) :
    Option (PVC × Bool) :=
  if pvc.requestStorage = size ∧ pvc.capacityStorage = size then some (pvc, true)
  else if pvc.requestStorage = size then some (pvc, false)
  else if parseOk size then some ({ pvc with requestStorage := size }, false)
  else none

/-- modifyPVCAnnoStatus (pkg/manager/volumes/selector.go): copy the status
revision/class/size annotations from the spec annotations. -/
def modifyPVCAnnoStatus (pvc : PVC) : PVC :=
  let rev := annoD pvc annoKeyPVCSpecRevision
  let sc := annoD pvc annoKeyPVCSpecStorageClass
  let size := annoD pvc annoKeyPVCSpecStorageSize
  setAnno (setAnno (setAnno pvc annoKeyPVCStatusRevision rev)
    annoKeyPVCStatusStorageClass sc) annoKeyPVCStatusStorageSize size

/-- setLastTransitionTimestamp (pkg/manager/volumes/selector.go); the
formatted metav1.Now() is the `nowStr` parameter. -/
def setLastTransitionTimestamp (nowStr : String) (pvc : PVC) : PVC :=
  setAnno pvc annoKeyPVCLastTransitionTimestamp nowStr

/-- modifyPVCAnnoSpec (pkg/manager/volumes/selector.go): the Preparing-phase
annotation update — snapshot plus conditional revision bump, and, when the
component needs no eviction, an immediate last-transition stamp. -/
def modifyPVCAnnoSpec (nowStr : String) (shouldEvict : Bool)
    (desired : DesiredVolume) (pvc : PVC) : PVC :=
  let scName := match desired.storageClass with
    | some sc => sc.name
    | none => ""
  let p1 := specSnapshotStep pvc scName desired.size
  if shouldEvict then p1 else setLastTransitionTimestamp nowStr p1

/-- Outcome of the per-volume dispatch of podVolModifier.Modify for one
volume: the resulting claim, whether the pod is still considered complete,
whether the cloud delegate's ModifyVolume was invoked, and whether an error
was recorded. -/
structure StepResult where
  pvc : PVC
  completed : Bool
  delegateCalled : Bool
  err : Bool
deriving DecidableEq, Repr

/-- The VolumePhaseModifying arm of podVolModifier.Modify
(pkg/manager/volumes/selector.go): invoke the delegate (modifyVolume parses
the desired size before the call), then wait, or run the fs-resize handshake
and, once fully sized, commit the status annotations. The delegate result is
the `wait` parameter. -/
def modifyingPart (parseOk : String → Bool) (desired : DesiredVolume)
    (pvc : PVC) (wait : Bool) : StepResult :=
  if !parseOk desired.size then ⟨pvc, true, false, true⟩
  else if wait then ⟨pvc, false, true, false⟩
  else
    match syncPVCSize parseOk desired.size pvc with
    | none => ⟨pvc, true, true, true⟩
    | some (pvc2, synced) =>
      if !synced then ⟨pvc2, false, true, false⟩
      else ⟨modifyPVCAnnoStatus pvc2, true, true, false⟩

/-- The VolumePhaseWaitForLeaderEviction arm (and the tail of the Preparing
arm) of podVolModifier.Modify: the eviction gate. As in the source,
`isEvicted` is the negation of isLeaderEvictedOrTimeout; when the gate holds
the volume is left incomplete, otherwise the last-transition timestamp is
stamped before falling through to the Modifying arm. -/
def evictionGatePart (parseOk : String → Bool) (nowStr : String) (now : Int)
    (tc : TidbCluster) (podName : String) (shouldEvictLeader : Bool)
    (desired : DesiredVolume) (pvc : PVC) (wait : Bool) : StepResult :=
  let isEvicted := !isLeaderEvictedOrTimeout now tc podName
  if shouldEvictLeader then
    if isEvicted then ⟨pvc, false, false, false⟩
    else modifyingPart parseOk desired (setLastTransitionTimestamp nowStr pvc) wait
  else modifyingPart parseOk desired pvc wait

/-- The per-volume switch of podVolModifier.Modify
(pkg/manager/volumes/selector.go, lines 146-192), with the fallthrough chain
Preparing → WaitForLeaderEviction → Modifying made explicit: Preparing first
runs modifyPVCAnnoSpec, the eviction gate applies to the Preparing and
WaitForLeaderEviction arms, and the Modifying arm invokes the delegate with
no gate; Pending and Modified take no action. -/
def modifyStep (parseOk : String → Bool) (nowStr : String) (now : Int)
    (tc : TidbCluster) (podName : String) (shouldEvictLeader : Bool)
    (desired : DesiredVolume) (pvc : PVC) (phase : VolumePhase) (wait : Bool) :
    StepResult :=
  match phase with
  | .preparing =>
    evictionGatePart parseOk nowStr now tc podName shouldEvictLeader desired
      (modifyPVCAnnoSpec nowStr shouldEvictLeader desired pvc) wait
  | .waitForLeaderEviction =>
    evictionGatePart parseOk nowStr now tc podName shouldEvictLeader desired
      pvc wait
  | .modifying => modifyingPart parseOk desired pvc wait
  | _ => ⟨pvc, true, false, false⟩

/-- Helper: the status annotations written by modifyPVCAnnoStatus are exactly
the spec annotations of the input claim. -/
theorem modifyPVCAnnoStatus_copies (pvc : PVC) :
    annoD (modifyPVCAnnoStatus pvc) annoKeyPVCStatusRevision =
      annoD pvc annoKeyPVCSpecRevision ∧
    annoD (modifyPVCAnnoStatus pvc) annoKeyPVCStatusStorageClass =
      annoD pvc annoKeyPVCSpecStorageClass ∧
    annoD (modifyPVCAnnoStatus pvc) annoKeyPVCStatusStorageSize =
      annoD pvc annoKeyPVCSpecStorageSize := by
  refine ⟨?_, ?_, ?_⟩ <;>
    simp [modifyPVCAnnoStatus, annoD, setAnno, lookupKV_setKV_same,
      lookupKV_setKV_other, annoKeyPVCStatusRevision,
      annoKeyPVCStatusStorageClass, annoKeyPVCStatusStorageSize]

/-- C4: in the Modifying arm, a wait=true delegate result leaves the claim
untouched and marks the pod incomplete; a wait=false result drives the live
requested size to the desired size when they differ (status annotations
untouched, still incomplete), waits while the reported capacity lags, and
copies the status annotations from the spec annotations exactly when both the
requested size and the capacity equal the desired size. -/
theorem modifying_branch_behavior (parseOk : String → Bool)
    (desired : DesiredVolume) (pvc : PVC)
    (hp : parseOk desired.size = true) :
    modifyingPart parseOk desired pvc true = ⟨pvc, false, true, false⟩ ∧
    (pvc.requestStorage ≠ desired.size →
      modifyingPart parseOk desired pvc false =
        ⟨{ pvc with requestStorage := desired.size }, false, true, false⟩) ∧
    (pvc.requestStorage = desired.size → pvc.capacityStorage ≠ desired.size →
      modifyingPart parseOk desired pvc false = ⟨pvc, false, true, false⟩) ∧
    (pvc.requestStorage = desired.size → pvc.capacityStorage = desired.size →
      modifyingPart parseOk desired pvc false =
        ⟨modifyPVCAnnoStatus pvc, true, true, false⟩ ∧
      annoD (modifyingPart parseOk desired pvc false).pvc
          annoKeyPVCStatusRevision = annoD pvc annoKeyPVCSpecRevision ∧
      annoD (modifyingPart parseOk desired pvc false).pvc
          annoKeyPVCStatusStorageClass = annoD pvc annoKeyPVCSpecStorageClass ∧
      annoD (modifyingPart parseOk desired pvc false).pvc
          annoKeyPVCStatusStorageSize = annoD pvc annoKeyPVCSpecStorageSize) := by
  refine ⟨?_, ?_, ?_, ?_⟩
  · simp [modifyingPart, hp]
  · intro hr
    simp [modifyingPart, hp, syncPVCSize, hr]
  · intro hr hc
    simp [modifyingPart, hp, syncPVCSize, hr, hc]
  · intro hr hc
    have heq : modifyingPart parseOk desired pvc false =
        ⟨modifyPVCAnnoStatus pvc, true, true, false⟩ := by
      simp [modifyingPart, hp, syncPVCSize, hr, hc]
    refine ⟨heq, ?_, ?_, ?_⟩ <;>
      rw [heq] <;>
      simp [modifyPVCAnnoStatus_copies pvc,
        (modifyPVCAnnoStatus_copies pvc).2.1, (modifyPVCAnnoStatus_copies pvc).2.2]

/-- Witness for C4 on a claim at 10Gi request and capacity with desired 20Gi:
wait=true leaves it untouched; wait=false drives the request to 20Gi. -/
theorem modifying_branch_behavior_witness :
    modifyingPart (fun _ => true) ⟨"tikv", "20Gi", some ⟨"gp3", "aws"⟩⟩
        ⟨[], "10Gi", "10Gi", some "gp3"⟩ true =
      ⟨⟨[], "10Gi", "10Gi", some "gp3"⟩, false, true, false⟩ ∧
    modifyingPart (fun _ => true) ⟨"tikv", "20Gi", some ⟨"gp3", "aws"⟩⟩
        ⟨[], "10Gi", "10Gi", some "gp3"⟩ false =
      ⟨⟨[], "20Gi", "10Gi", some "gp3"⟩, false, true, false⟩ :=
  ⟨(modifying_branch_behavior (fun _ => true) ⟨"tikv", "20Gi", some ⟨"gp3", "aws"⟩⟩
      ⟨[], "10Gi", "10Gi", some "gp3"⟩ rfl).1,
   (modifying_branch_behavior (fun _ => true) ⟨"tikv", "20Gi", some ⟨"gp3", "aws"⟩⟩
      ⟨[], "10Gi", "10Gi", some "gp3"⟩ rfl).2.1 (by decide)⟩

/-- C1 (amended): for an eviction-required component, a volume dispatched in
the Preparing or WaitForLeaderEviction phase never reaches the delegate's
ModifyVolume while isLeaderEvictedOrTimeout is false — the pass leaves it
incomplete instead. (Volumes entering the dispatch directly in the Modifying
phase bypass this gate; see the counterexample.) -/
theorem eviction_gate_on_preparing_and_wait (parseOk : String → Bool)
    (nowStr : String) (now : Int) (tc : TidbCluster) (podName : String)
    (desired : DesiredVolume) (pvc : PVC) (phase : VolumePhase) (wait : Bool)
    (hev : isLeaderEvictedOrTimeout now tc podName = false)
    (hph : phase = .preparing ∨ phase = .waitForLeaderEviction) :
    (modifyStep parseOk nowStr now tc podName true desired pvc phase
        wait).delegateCalled = false ∧
    (modifyStep parseOk nowStr now tc podName true desired pvc phase
        wait).completed = false := by
  rcases hph with h | h <;> subst h <;>
    simp [modifyStep, evictionGatePart, hev]

/-- Witness for C1's amended theorem: a TiKV pod with 10 leaders and no
eviction record, volume in Preparing. -/
theorem eviction_gate_on_preparing_and_wait_witness :
    isLeaderEvictedOrTimeout 0 ⟨[⟨"db-tikv-0", 10⟩], [], 1500000000000⟩
        "db-tikv-0" = false ∧
    (modifyStep (fun _ => true) "ts" 0 ⟨[⟨"db-tikv-0", 10⟩], [], 1500000000000⟩
        "db-tikv-0" true ⟨"tikv", "20Gi", some ⟨"gp3", "aws"⟩⟩
        ⟨[], "10Gi", "10Gi", some "gp3"⟩ .preparing true).delegateCalled =
      false :=
  ⟨by decide,
   (eviction_gate_on_preparing_and_wait (fun _ => true) "ts" 0
      ⟨[⟨"db-tikv-0", 10⟩], [], 1500000000000⟩ "db-tikv-0"
      ⟨"tikv", "20Gi", some ⟨"gp3", "aws"⟩⟩ ⟨[], "10Gi", "10Gi", some "gp3"⟩
      .preparing true (by decide) (Or.inl rfl)).1⟩

/-- Counterexample to C1 as stated: a claim whose spec revision "1" differs
from its absent status revision classifies Modifying and enters the dispatch
there directly; with an eviction-required component whose store still holds
10 leaders (isLeaderEvictedOrTimeout false, no timeout), the delegate's
ModifyVolume is nevertheless invoked. -/
theorem eviction_gate_hole_on_direct_modifying :
    isLeaderEvictedOrTimeout 0 ⟨[⟨"db-tikv-0", 10⟩], [], 1500000000000⟩
        "db-tikv-0" = false ∧
    getVolumePhase (fun _ => none) 0 [("aws", 100)]
        ⟨[(annoKeyPVCSpecRevision, "1"), (annoKeyPVCSpecStorageClass, "gp3"),
          (annoKeyPVCSpecStorageSize, "20Gi")], "10Gi", "10Gi", some "gp3"⟩
        ⟨"tikv", "20Gi", some ⟨"gp3", "aws"⟩⟩ = .modifying ∧
    (modifyStep (fun _ => true) "ts" 0
        ⟨[⟨"db-tikv-0", 10⟩], [], 1500000000000⟩ "db-tikv-0" true
        ⟨"tikv", "20Gi", some ⟨"gp3", "aws"⟩⟩
        ⟨[(annoKeyPVCSpecRevision, "1"), (annoKeyPVCSpecStorageClass, "gp3"),
          (annoKeyPVCSpecStorageSize, "20Gi")], "10Gi", "10Gi", some "gp3"⟩
        .modifying true).delegateCalled = true :=
  ⟨by decide, by decide, by decide⟩

/-- C10: a pod with no TiKV store entry matching its name is treated as
already evicted: isLeaderEvictedOrTimeout returns true, and the gated
WaitForLeaderEviction arm of the dispatch falls straight through to the
Modifying arm (stamping the timestamp) instead of waiting. -/
theorem no_store_treated_as_evicted (now : Int) (tc : TidbCluster)
    (podName : String) (h : ∀ s ∈ tc.tikvStores, s.podName ≠ podName) :
    isLeaderEvictedOrTimeout now tc podName = true ∧
    ∀ (parseOk : String → Bool) (nowStr : String) (desired : DesiredVolume)
      (pvc : PVC) (wait : Bool),
      modifyStep parseOk nowStr now tc podName true desired pvc
          .waitForLeaderEviction wait =
        modifyingPart parseOk desired (setLastTransitionTimestamp nowStr pvc)
          wait := by
  have hfind : tc.tikvStores.find? (fun s => s.podName = podName) = none := by
    rw [List.find?_eq_none]
    intro s hs
    simp [h s hs]
  have hev : isLeaderEvictedOrTimeout now tc podName = true := by
    simp [isLeaderEvictedOrTimeout, hfind]
  refine ⟨hev, ?_⟩
  intro parseOk nowStr desired pvc wait
  simp [modifyStep, evictionGatePart, hev]

/-- Witness for C10: the cluster knows one store for a different pod. -/
theorem no_store_treated_as_evicted_witness :
    isLeaderEvictedOrTimeout 0 ⟨[⟨"db-tikv-1", 5⟩], [], 1500000000000⟩
        "db-tikv-0" = true ∧
    modifyStep (fun _ => true) "ts" 0 ⟨[⟨"db-tikv-1", 5⟩], [], 1500000000000⟩
        "db-tikv-0" true ⟨"tikv", "20Gi", some ⟨"gp3", "aws"⟩⟩
        ⟨[], "10Gi", "10Gi", some "gp3"⟩ .waitForLeaderEviction false =
      modifyingPart (fun _ => true) ⟨"tikv", "20Gi", some ⟨"gp3", "aws"⟩⟩
        (setLastTransitionTimestamp "ts" ⟨[], "10Gi", "10Gi", some "gp3"⟩)
        false :=
  ⟨(no_store_treated_as_evicted 0 ⟨[⟨"db-tikv-1", 5⟩], [], 1500000000000⟩
      "db-tikv-0" (by decide)).1,
   (no_store_treated_as_evicted 0 ⟨[⟨"db-tikv-1", 5⟩], [], 1500000000000⟩
      "db-tikv-0" (by decide)).2 (fun _ => true) "ts"
      ⟨"tikv", "20Gi", some ⟨"gp3", "aws"⟩⟩ ⟨[], "10Gi", "10Gi", some "gp3"⟩
      false⟩

/-- The EBS adapter's Volume record
(pkg/manager/volumes/delegation/aws/ebs_modifier.go), keeping the source's
spelling of IsFaild. -/
structure EC2Volume where
  volumeId : String
  size : Option Int
  iops : Option Int
  throughput : Option Int
  volType : String
  isCompleted : Bool
  isFaild : Bool
deriving DecidableEq, Repr

/-- The modification states the adapter's switch distinguishes; `other`
covers every remaining API state (the switch sets no flag for them). -/
inductive VolumeModificationState where
  | completed
  | failed
  | modifying
  | optimizing
  | other
deriving DecidableEq, Repr

/-- One VolumesModifications record returned by
DescribeVolumesModifications. -/
structure VolumeModification where
  volumeId : Option String
  targetSize : Option Int
  targetIops : Option Int
  targetThroughput : Option Int
  targetVolumeType : String
  modificationState : VolumeModificationState
deriving DecidableEq, Repr

/-- EBSModifier.getCurrentVolumeStatus
(pkg/manager/volumes/delegation/aws/ebs_modifier.go): iterate the response
records, skipping a record when its VolumeId is nil or equals the queried id
(the source's condition, verbatim), and build the Volume from the first
remaining record; completed and optimizing map to IsCompleted, failed to
IsFaild. -/
def getCurrentVolumeStatus (res : List VolumeModification) (id : String) :
    Option EC2Volume :=
  match res with
  | [] => none
  | s :: rest =>
    if s.volumeId = none ∨ s.volumeId = some id then
      getCurrentVolumeStatus rest id
    else
      some
        { volumeId := s.volumeId.getD ""
          size := s.targetSize
          iops := s.targetIops
          throughput := s.targetThroughput
          volType := s.targetVolumeType
          isCompleted := s.modificationState = .completed ∨
            s.modificationState = .optimizing
          isFaild := s.modificationState = .failed }

/-- diffInt32 (pkg/manager/volumes/delegation/aws/ebs_modifier.go): a
nil-vs-set mismatch counts as a difference. -/
def diffInt32 : Option Int → Option Int → Bool
  | none, none => false
  | none, some _ => true
  | some _, none => true
  | some a, some b => a ≠ b

/-- EBSModifier.diffVolume: field-by-field comparison of IOPS, throughput,
size and volume type. -/
def diffVolume (actual desired : EC2Volume) : Bool :=
  diffInt32 actual.iops desired.iops ||
  diffInt32 actual.throughput desired.throughput ||
  diffInt32 actual.size desired.size ||
  (actual.volType ≠ desired.volType)

/-- Documented EBS size bounds (ebs_modifier.go). -/
def minSize : Int := 1

def maxSize : Int := 16384

/-- strconv.ParseInt(str, 10, 32) modelled over Int with the 32-bit bound. -/
def parseInt32 (s : String) : Option Int :=
  match s.toInt? with
  | some n => if -2147483648 ≤ n ∧ n ≤ 2147483647 then some n else none
  | none => none

/-- getParamInt32: an absent parameter is no error (inner none); a present
but unparsable one is an error (outer none). -/
def getParamInt32 (params : List (String × String)) (key : String) :
    Option (Option Int) :=
  match lookupKV params key with
  | none => some none
  | some str =>
    match parseInt32 str with
    | some n => some (some n)
    | none => none

/-- EBSModifier.getExpectedVolume: translate claim+volume+class into the
desired Volume. `requestGiB` stands for the claim's requested quantity scaled
to Giga (quantity.ScaledValue(resource.Giga), an external library call),
`volumeHandle` for pv.Spec.CSI.VolumeHandle, and `scParams` for the storage
class's parameter map (none for a nil class). Size outside the documented
bounds or an unparsable iops/throughput parameter fails the translation. -/
def getExpectedVolume (requestGiB : Int) (volumeHandle : String)
    (scParams : Option (List (String × String))) : Option EC2Volume :=
  if requestGiB < minSize ∨ requestGiB > maxSize then none
  else
    match scParams with
    | none => some ⟨volumeHandle, some requestGiB, none, none, "", false, false⟩
    | some params =>
      match getParamInt32 params "throughput" with
      | none => none
      | some throughput =>
        match getParamInt32 params "iops" with
        | none => none
        | some iops =>
          some ⟨volumeHandle, some requestGiB, iops, throughput,
            (lookupKV params "type").getD "", false, false⟩

/-- EBSModifier.ModifyVolume
(pkg/manager/volumes/delegation/aws/ebs_modifier.go): compute the desired
volume, query the in-flight modification records, and either finish
(wait=false), keep waiting on a converging matching record, or issue a new
ModifyVolume API call. The result pairs the returned wait flag with whether a
new API call was issued; the DescribeVolumesModifications response is the
`res` parameter and outer `none` models a failed translation. -/
def ebsModifyVolume (requestGiB : Int) (volumeHandle : String)
    (scParams : Option (List (String × String)))
    (res : List VolumeModification) : Option (Bool × Bool) :=
  match getExpectedVolume requestGiB volumeHandle scParams with
  | none => none
  | some desired =>
    match getCurrentVolumeStatus res desired.volumeId with
    | some actual =>
      if !diffVolume actual desired then
        if actual.isCompleted then some (false, false)
        else if !actual.isFaild then some (true, false)
        else some (true, true)
      else some (true, true)
    | none => some (true, true)

/-- C2 fails on the code: the response holds exactly one in-flight record,
for the queried volume id "vol-0", matching the desired size/IOPS/throughput/
type and in the terminal completed state — yet getCurrentVolumeStatus skips
every record whose VolumeId equals the queried id (its filter condition is
inverted), so ModifyVolume finds no record, issues a new API call and returns
wait=true, where the claim requires wait=false with no call. -/
theorem ebs_modify_skips_matching_record :
    getExpectedVolume 20 "vol-0" (some [("type", "gp3")]) =
      some ⟨"vol-0", some 20, none, none, "gp3", false, false⟩ ∧
    diffVolume
        ⟨"vol-0", some 20, none, none, "gp3", true, false⟩
        ⟨"vol-0", some 20, none, none, "gp3", false, false⟩ = false ∧
    getCurrentVolumeStatus
        [⟨some "vol-0", some 20, none, none, "gp3", .completed⟩] "vol-0" =
      none ∧
    ebsModifyVolume 20 "vol-0" (some [("type", "gp3")])
        [⟨some "vol-0", some 20, none, none, "gp3", .completed⟩] =
      some (true, true) := by
  refine ⟨by decide, by decide, by decide, by decide⟩

/-- An auxiliary StorageVolume declaration of a component spec
(v1alpha1.StorageVolume): declared name, size string, optional storage-class
reference. -/
structure StorageVolume where
  name : String
  storageSize : String
  storageClassName : Option String
deriving DecidableEq, Repr

/-- The storage request of a component with a primary volume: the requested
quantity (canonical string) and the optional storage-class reference. -/
structure ComponentStorage where
  requestsStorage : String
  storageClassName : Option String
deriving DecidableEq, Repr

/-- A TiFlash StorageClaim: requested quantity and storage-class reference. -/
structure StorageClaim where
  requestsStorage : String
  storageClassName : Option String
deriving DecidableEq, Repr

/-- The member types of src/unnamed/part_002's switch. -/
inductive MemberType where
  | pd
  | tidb
  | tikv
  | tiflash
  | ticdc
  | pump
deriving DecidableEq, Repr

/-- The storage-bearing part of the TidbCluster spec read by the resolver. -/
structure TidbClusterSpec where
  pd : ComponentStorage
  pdStorageVolumes : List StorageVolume
  tidbStorageVolumes : List StorageVolume
  tikv : ComponentStorage
  tikvStorageVolumes : List StorageVolume
  tiflashStorageClaims : List StorageClaim
  ticdcStorageVolumes : List StorageVolume
  pump : ComponentStorage
deriving DecidableEq, Repr

/-- getStorageClass (src/unnamed/part_002): a nil reference resolves to no
class; a named reference is looked up and a lookup failure is an error. -/
def getStorageClass (scLister : String → Option StorageClass) :
    Option String → Except Unit (Option StorageClass)
  | none => .ok none
  | some n =>
    match scLister n with
    | some sc => .ok (some sc)
    | none => .error ()

/-- The auxiliary storage-volume loop of GetDesiredVolumesForTCComponent
(src/unnamed/part_002, lines 91-109): an unparsable size skips the volume
with a warning; a storage-class lookup failure aborts the whole resolution.
`parseQ` models resource.ParseQuantity (returning the canonical quantity
string) and `mkName` models v1alpha1.GetStorageVolumeName(-, mt). -/
def resolveStorageVolumes (parseQ : String → Option String)
    (scLister : String → Option StorageClass) (mkName : String → String) :
    List StorageVolume → Except Unit (List DesiredVolume)
  | [] => .ok []
  | sv :: rest =>
    match parseQ sv.storageSize with
    | some q =>
      match getStorageClass scLister sv.storageClassName with
      | .error e => .error e
      | .ok sc =>
        match resolveStorageVolumes parseQ scLister mkName rest with
        | .error e => .error e
        | .ok ds => .ok (⟨mkName sv.name, q, sc⟩ :: ds)
    | none => resolveStorageVolumes parseQ scLister mkName rest

/-- The primary-volume resolution shared by the pd/tikv/pump branches of
GetDesiredVolumesForTCComponent: resolve the class (fatal on failure) and
take the requested quantity as the size. -/
def resolvePrimary (scLister : String → Option StorageClass)
    (primaryName : String) (c : ComponentStorage) :
    Except Unit DesiredVolume :=
  match getStorageClass scLister c.storageClassName with
  | .error e => .error e
  | .ok sc => .ok ⟨primaryName, c.requestsStorage, sc⟩

/-- The TiFlash branch of GetDesiredVolumesForTCComponent: one desired volume
per storage claim, named by index; a storage-class lookup failure is fatal. -/
def resolveTiFlashClaims (scLister : String → Option StorageClass)
    (mkNameTiFlash : Nat → String) (idx : Nat) :
    List StorageClaim → Except Unit (List DesiredVolume)
  | [] => .ok []
  | claim :: rest =>
    match getStorageClass scLister claim.storageClassName with
    | .error e => .error e
    | .ok sc =>
      match resolveTiFlashClaims scLister mkNameTiFlash (idx + 1) rest with
      | .error e => .error e
      | .ok ds => .ok (⟨mkNameTiFlash idx, claim.requestsStorage, sc⟩ :: ds)

/-- GetDesiredVolumesForTCComponent (src/unnamed/part_002): per member type,
the primary desired volume (where the component has one) followed by the
resolved auxiliary storage volumes. -/
def GetDesiredVolumesForTCComponent (parseQ : String → Option String)
    (scLister : String → Option StorageClass) (mkName : String → String)
    (mkNameTiFlash : Nat → String) (tc : TidbClusterSpec) :
    MemberType → Except Unit (List DesiredVolume)
  | .pd =>
    match resolvePrimary scLister (mkName "") tc.pd with
    | .error e => .error e
    | .ok d =>
      match resolveStorageVolumes parseQ scLister mkName tc.pdStorageVolumes with
      | .error e => .error e
      | .ok ds => .ok (d :: ds)
  | .tidb => resolveStorageVolumes parseQ scLister mkName tc.tidbStorageVolumes
  | .tikv =>
    match resolvePrimary scLister (mkName "") tc.tikv with
    | .error e => .error e
    | .ok d =>
      match resolveStorageVolumes parseQ scLister mkName tc.tikvStorageVolumes with
      | .error e => .error e
      | .ok ds => .ok (d :: ds)
  | .tiflash => resolveTiFlashClaims scLister mkNameTiFlash 0 tc.tiflashStorageClaims
  | .ticdc => resolveStorageVolumes parseQ scLister mkName tc.ticdcStorageVolumes
  | .pump =>
    match resolvePrimary scLister (mkName "") tc.pump with
    | .error e => .error e
    | .ok d => .ok [d]

/-- Helper: an auxiliary volume with an unparsable size is skipped — removing
it from the list does not change the resolution result. -/
theorem resolveStorageVolumes_skip (parseQ : String → Option String)
    (scLister : String → Option StorageClass) (mkName : String → String)
    (pre post : List StorageVolume) (sv : StorageVolume)
    (h : parseQ sv.storageSize = none) :
    resolveStorageVolumes parseQ scLister mkName (pre ++ sv :: post) =
      resolveStorageVolumes parseQ scLister mkName (pre ++ post) := by
  induction pre with
  | nil => simp [resolveStorageVolumes, h]
  | cons hd tl ih =>
    simp only [List.cons_append, resolveStorageVolumes, List.append_eq]
    rw [ih]

/-- Helper: a storage-class lookup failure for any parseable auxiliary volume
is fatal for the whole auxiliary resolution. -/
theorem resolveStorageVolumes_fatal (parseQ : String → Option String)
    (scLister : String → Option StorageClass) (mkName : String → String)
    (svs : List StorageVolume) (sv : StorageVolume) (q n : String)
    (hmem : sv ∈ svs) (hq : parseQ sv.storageSize = some q)
    (hn : sv.storageClassName = some n) (hl : scLister n = none) :
    resolveStorageVolumes parseQ scLister mkName svs = .error () := by
  induction svs with
  | nil => cases hmem
  | cons hd tl ih =>
    rcases List.mem_cons.mp hmem with heq | hmem2
    · subst heq
      simp [resolveStorageVolumes, hq, hn, getStorageClass, hl]
    · unfold resolveStorageVolumes
      cases hp : parseQ hd.storageSize with
      | none => simp [ih hmem2]
      | some q2 =>
        cases hsc : getStorageClass scLister hd.storageClassName with
        | error e => simp [hsc]
        | ok sc => simp [hsc, ih hmem2]

/-- Helper: a storage-class lookup failure for any TiFlash storage claim is
fatal for the TiFlash resolution. -/
theorem resolveTiFlashClaims_fatal (scLister : String → Option StorageClass)
    (mkNameTiFlash : Nat → String) (idx : Nat) (claims : List StorageClaim)
    (claim : StorageClaim) (n : String) (hmem : claim ∈ claims)
    (hn : claim.storageClassName = some n) (hl : scLister n = none) :
    resolveTiFlashClaims scLister mkNameTiFlash idx claims = .error () := by
  induction claims generalizing idx with
  | nil => cases hmem
  | cons hd tl ih =>
    rcases List.mem_cons.mp hmem with heq | hmem2
    · subst heq
      simp [resolveTiFlashClaims, hn, getStorageClass, hl]
    · unfold resolveTiFlashClaims
      cases hsc : getStorageClass scLister hd.storageClassName with
      | error e => simp [hsc]
      | ok sc => simp [hsc, ih (idx + 1) hmem2]

/-- C7: in desired-volume resolution, an auxiliary volume whose size string
fails to parse is skipped without affecting the remaining volumes (shown both
for the auxiliary loop and lifted through the full TiKV resolution call),
whereas a failing storage-class lookup — for a parseable auxiliary volume, a
primary volume (pd/tikv/pump), or a TiFlash storage claim — makes the whole
resolution call return an error. -/
theorem desired_volume_resolution_errors (parseQ : String → Option String)
    (scLister : String → Option StorageClass) (mkName : String → String)
    (mkNameTiFlash : Nat → String) (tc : TidbClusterSpec) :
    (∀ (pre post : List StorageVolume) (sv : StorageVolume),
      parseQ sv.storageSize = none →
      resolveStorageVolumes parseQ scLister mkName (pre ++ sv :: post) =
        resolveStorageVolumes parseQ scLister mkName (pre ++ post)) ∧
    (∀ (pre post : List StorageVolume) (sv : StorageVolume),
      parseQ sv.storageSize = none →
      GetDesiredVolumesForTCComponent parseQ scLister mkName mkNameTiFlash
          { tc with tikvStorageVolumes := pre ++ sv :: post } .tikv =
        GetDesiredVolumesForTCComponent parseQ scLister mkName mkNameTiFlash
          { tc with tikvStorageVolumes := pre ++ post } .tikv) ∧
    (∀ (sv : StorageVolume) (q n : String), sv ∈ tc.tikvStorageVolumes →
      parseQ sv.storageSize = some q → sv.storageClassName = some n →
      scLister n = none →
      GetDesiredVolumesForTCComponent parseQ scLister mkName mkNameTiFlash tc
          .tikv = .error ()) ∧
    (∀ n : String, tc.tikv.storageClassName = some n → scLister n = none →
      GetDesiredVolumesForTCComponent parseQ scLister mkName mkNameTiFlash tc
          .tikv = .error ()) ∧
    (∀ n : String, tc.pump.storageClassName = some n → scLister n = none →
      GetDesiredVolumesForTCComponent parseQ scLister mkName mkNameTiFlash tc
          .pump = .error ()) ∧
    (∀ (claim : StorageClaim) (n : String), claim ∈ tc.tiflashStorageClaims →
      claim.storageClassName = some n → scLister n = none →
      GetDesiredVolumesForTCComponent parseQ scLister mkName mkNameTiFlash tc
          .tiflash = .error ()) := by
  refine ⟨?_, ?_, ?_, ?_, ?_, ?_⟩
  · intro pre post sv h
    exact resolveStorageVolumes_skip parseQ scLister mkName pre post sv h
  · intro pre post sv h
    unfold GetDesiredVolumesForTCComponent
    rw [resolveStorageVolumes_skip parseQ scLister mkName pre post sv h]
  · intro sv q n hmem hq hn hl
    unfold GetDesiredVolumesForTCComponent
    cases hprim : resolvePrimary scLister (mkName "") tc.tikv with
    | error e => simp [hprim]
    | ok d =>
      simp [hprim,
        resolveStorageVolumes_fatal parseQ scLister mkName _ sv q n hmem hq hn hl]
  · intro n hn hl
    unfold GetDesiredVolumesForTCComponent resolvePrimary
    simp [hn, getStorageClass, hl]
  · intro n hn hl
    unfold GetDesiredVolumesForTCComponent resolvePrimary
    simp [hn, getStorageClass, hl]
  · intro claim n hmem hn hl
    unfold GetDesiredVolumesForTCComponent
    exact resolveTiFlashClaims_fatal scLister mkNameTiFlash 0 _ claim n hmem hn hl

/-- Witness for C7 on a concrete TiKV spec: the auxiliary volume "broken"
with an unparsable size is skipped and resolution succeeds; replacing the
valid auxiliary volume's class with an unresolvable one fails the call. -/
theorem desired_volume_resolution_errors_witness :
    GetDesiredVolumesForTCComponent
        (fun s => if s = "bad" then none else some s)
        (fun n => if n = "known" then some ⟨"known", "aws"⟩ else none)
        (fun s => s) (fun _ => "tiflash")
        ⟨⟨"10Gi", none⟩, [], [], ⟨"100Gi", some "known"⟩,
          [⟨"raft", "bad", none⟩, ⟨"wal", "5Gi", some "known"⟩], [], [],
          ⟨"10Gi", none⟩⟩ .tikv =
      .ok [⟨"", "100Gi", some ⟨"known", "aws"⟩⟩,
        ⟨"wal", "5Gi", some ⟨"known", "aws"⟩⟩] ∧
    GetDesiredVolumesForTCComponent
        (fun s => if s = "bad" then none else some s)
        (fun n => if n = "known" then some ⟨"known", "aws"⟩ else none)
        (fun s => s) (fun _ => "tiflash")
        ⟨⟨"10Gi", none⟩, [], [], ⟨"100Gi", some "known"⟩,
          [⟨"raft", "bad", none⟩, ⟨"wal", "5Gi", some "missing"⟩], [], [],
          ⟨"10Gi", none⟩⟩ .tikv = .error () := by
  constructor
  · have h := (desired_volume_resolution_errors
      (fun s => if s = "bad" then none else some s)
      (fun n => if n = "known" then some ⟨"known", "aws"⟩ else none)
      (fun s => s) (fun _ => "tiflash")
      ⟨⟨"10Gi", none⟩, [], [], ⟨"100Gi", some "known"⟩,
        [⟨"raft", "bad", none⟩, ⟨"wal", "5Gi", some "known"⟩], [], [],
        ⟨"10Gi", none⟩⟩).2.1 [] [⟨"wal", "5Gi", some "known"⟩]
      ⟨"raft", "bad", none⟩ (by decide)
    rw [show ([] ++ ⟨"raft", "bad", none⟩ ::
        [⟨"wal", "5Gi", some "known"⟩] : List StorageVolume) =
      [⟨"raft", "bad", none⟩, ⟨"wal", "5Gi", some "known"⟩] from rfl] at h
    rw [h]
    rfl
  · exact (desired_volume_resolution_errors
      (fun s => if s = "bad" then none else some s)
      (fun n => if n = "known" then some ⟨"known", "aws"⟩ else none)
      (fun s => s) (fun _ => "tiflash")
      ⟨⟨"10Gi", none⟩, [], [], ⟨"100Gi", some "known"⟩,
        [⟨"raft", "bad", none⟩, ⟨"wal", "5Gi", some "missing"⟩], [], [],
        ⟨"10Gi", none⟩⟩).2.2.1 ⟨"wal", "5Gi", some "missing"⟩ "5Gi" "missing"
      (by decide) (by decide) (by decide) (by decide)

/-- The pod ordering comparator of pvcModifier.getPodsOfComponent
(pkg/manager/volumes/pvc_modifier.go, the sort.Slice less function): shorter
names first, names of equal length compared lexicographically (Go string
comparison, embedded as the lexicographic order on the character list). -/
def podNameLess (a b : String) : Bool :=
  if a.length ≠ b.length then decide (a.length < b.length)
  else decide (a.data < b.data)

/-- The non-strict order induced by the comparator: `a` may precede `b`
exactly when the comparator does not order `b` strictly before `a` (the
guarantee sort.Slice gives about its output). -/
def podNameLE (a b : String) : Prop := podNameLess b a = false

instance : DecidableRel podNameLE := fun a b =>
  inferInstanceAs (Decidable (podNameLess b a = false))

theorem podNameLess_iff (a b : String) :
    podNameLess a b = true ↔
      a.length < b.length ∨ (a.length = b.length ∧ a.data < b.data) := by
  unfold podNameLess
  by_cases h : a.length = b.length <;> simp [h]

theorem podNameLE_iff (a b : String) :
    podNameLE a b ↔
      a.length < b.length ∨ (a.length = b.length ∧ a.data ≤ b.data) := by
  unfold podNameLE
  constructor
  · intro h
    have h2 : ¬ (b.length < a.length ∨ (b.length = a.length ∧ b.data < a.data)) := by
      rw [← podNameLess_iff]
      simp [h]
    push_neg at h2
    obtain ⟨hl, hs⟩ := h2
    rcases Nat.lt_or_ge a.length b.length with hlt | hge
    · exact Or.inl hlt
    · have he : a.length = b.length := by omega
      exact Or.inr ⟨he, hs he.symm⟩
  · intro h
    have h2 : ¬ (b.length < a.length ∨ (b.length = a.length ∧ b.data < a.data)) := by
      rcases h with h | ⟨he, hle⟩
      · push_neg
        exact ⟨by omega, fun hbe => absurd hbe (by omega)⟩
      · push_neg
        exact ⟨by omega, fun _ => hle⟩
    rw [← podNameLess_iff] at h2
    simpa using h2

instance : IsTotal String podNameLE := by
  constructor
  intro a b
  rw [podNameLE_iff, podNameLE_iff]
  rcases Nat.lt_trichotomy a.length b.length with h | h | h
  · exact Or.inl (Or.inl h)
  · rcases le_total a.data b.data with hle | hle
    · exact Or.inl (Or.inr ⟨h, hle⟩)
    · exact Or.inr (Or.inr ⟨h.symm, hle⟩)
  · exact Or.inr (Or.inl h)

instance : IsTrans String podNameLE := by
  constructor
  intro a b c hab hbc
  rw [podNameLE_iff] at hab hbc ⊢
  rcases hab with h1 | ⟨h1, h1s⟩ <;> rcases hbc with h2 | ⟨h2, h2s⟩
  · exact Or.inl (by omega)
  · exact Or.inl (by omega)
  · exact Or.inl (by omega)
  · exact Or.inr ⟨by omega, le_trans h1s h2s⟩

instance : IsAntisymm String podNameLE := by
  constructor
  intro a b hab hba
  rw [podNameLE_iff] at hab hba
  rcases hab with h1 | ⟨h1, h1s⟩ <;> rcases hba with h2 | ⟨h2, h2s⟩
  · omega
  · omega
  · omega
  · have hd : a.data = b.data := le_antisymm h1s h2s
    cases a
    cases b
    exact congrArg String.mk (by simpa using hd)

/-- getPodsOfComponent (pkg/manager/volumes/pvc_modifier.go): the listed pods
(given by name) sorted by the name-length-then-lexicographic comparator. -/
def getPodsOfComponent (pods : List String) : List String :=
  pods.insertionSort podNameLE

/-- C8: the pod list is ordered by increasing name length and, among equal
lengths, lexicographically; it is a permutation of the listed pods; and the
processing order is determined by the pod-name multiset alone — two listings
that are permutations of each other sort to the same pod order. -/
theorem pods_sorted_deterministic (pods pods2 : List String) :
    (getPodsOfComponent pods).Pairwise
      (fun a b => a.length < b.length ∨ (a.length = b.length ∧ a.data ≤ b.data)) ∧
    (getPodsOfComponent pods).Perm pods ∧
    (pods.Perm pods2 → getPodsOfComponent pods = getPodsOfComponent pods2) := by
  refine ⟨?_, ?_, ?_⟩
  · exact (List.sorted_insertionSort podNameLE pods).imp
      (fun h => (podNameLE_iff _ _).mp h)
  · exact List.perm_insertionSort podNameLE pods
  · intro hperm
    exact List.eq_of_perm_of_sorted
      (((List.perm_insertionSort podNameLE pods).trans hperm).trans
        (List.perm_insertionSort podNameLE pods2).symm)
      (List.sorted_insertionSort podNameLE pods)
      (List.sorted_insertionSort podNameLE pods2)

/-- Witness for C8: two listings of the same pods in different orders sort to
the identical order, shorter names first, ties lexicographic. -/
theorem pods_sorted_deterministic_witness :
    List.Perm ["db-tikv-10", "db-tikv-2", "db-tikv-1"]
      ["db-tikv-2", "db-tikv-1", "db-tikv-10"] ∧
    getPodsOfComponent ["db-tikv-10", "db-tikv-2", "db-tikv-1"] =
      getPodsOfComponent ["db-tikv-2", "db-tikv-1", "db-tikv-10"] ∧
    getPodsOfComponent ["db-tikv-10", "db-tikv-2", "db-tikv-1"] =
      ["db-tikv-1", "db-tikv-2", "db-tikv-10"] :=
  ⟨by decide,
   (pods_sorted_deterministic ["db-tikv-10", "db-tikv-2", "db-tikv-1"]
      ["db-tikv-2", "db-tikv-1", "db-tikv-10"]).2.2 (by decide),
   by decide⟩
